import Mathlib

/-!
Shallow embedding of the zampy adaptive regridding core
(`src/zampy/utils/regrid.py` and the `SpatialBounds` data model of
`src/zampy/datasets/dataset_protocol.py`).

Modelling conventions:
* Python floats are modelled as exact rationals (`ℚ`).
* An `xr.Dataset` with 1-D latitude/longitude coordinate arrays and a single
  2-D data variable is modelled as `Zampy.Dataset`: the two coordinate lists
  plus a row-major list of cell values, where a missing value (NaN) is `none`.
* `numpy.median` of an empty array yields NaN; this is modelled by `npMedian`
  returning `none` on the empty list.
* Functions whose Python counterpart would raise on NaN input (the groupby
  path computes `int(nan)` when resolution inference yields NaN) return
  `Option`/`Except` accordingly.
-/

namespace Zampy

/-- Spatial bounds record, from `dataset_protocol.SpatialBounds`:
four float fields `north`, `east`, `south`, `west` (in that order). -/
structure SpatialBounds where
  north : ℚ
  east : ℚ
  south : ℚ
  west : ℚ
deriving DecidableEq, Repr

/-- Validated construction of `SpatialBounds`, from the dataclass
`__post_init__`: raises `ValueError` when `south > north`, else when
`west > east`; the fields themselves are stored unchanged. -/
def SpatialBounds.make (north east south west : ℚ) : Except String SpatialBounds :=
  if south > north then
    Except.error ("Value of southern bound is greater than norther bound."
      ++ "\nPlease check the spatial bounds input.")
  else if west > east then
    Except.error ("Value of western bound is greater than east bound."
      ++ "\nPlease check the spatial bounds input.")
  else
    Except.ok ⟨north, east, south, west⟩

/-- Gridded dataset: 1-D latitude and longitude coordinate lists and the
2-D data variable, `values[i][j]` belonging to `(latitude[i], longitude[j])`;
`none` is a missing value (NaN). -/
structure Dataset where
  latitude : List ℚ
  longitude : List ℚ
  values : List (List (Option ℚ))
deriving DecidableEq, Repr

/-- First differences of successive entries, as `numpy.diff(xs, n=1)`. -/
def diff1 : List ℚ → List ℚ
  | [] => []
  | [_] => []
  | a :: b :: rest => (b - a) :: diff1 (b :: rest)

/-- Median as `numpy.median`: sort, take the middle element for odd length,
the mean of the two middle elements for even length; the empty array gives
NaN (`none`). -/
def npMedian (xs : List ℚ) : Option ℚ :=
  let s := List.insertionSort (· ≤ ·) xs
  if s.length = 0 then none
  else if s.length % 2 = 1 then s[s.length / 2]?
  else
    match s[s.length / 2 - 1]?, s[s.length / 2]? with
    | some a, some b => some ((a + b) / 2)
    | _, _ => none

/-- Resolution inference, from `regrid.infer_resolution`: the median of the
first differences of each coordinate axis. -/
def infer_resolution (dataset : Dataset) : Option ℚ × Option ℚ :=
  (npMedian (diff1 dataset.latitude), npMedian (diff1 dataset.longitude))

/-- Python `int(x)` on a float: truncation toward zero. -/
def pyInt (q : ℚ) : ℤ :=
  if 0 ≤ q then ⌊q⌋ else ⌈q⌉

/-- Rounding to the nearest integer with ties to even, as `numpy.round`. -/
def npRound (q : ℚ) : ℤ :=
  if q - ⌊q⌋ < 1/2 then ⌊q⌋
  else if 1/2 < q - ⌊q⌋ then ⌊q⌋ + 1
  else if 2 ∣ ⌊q⌋ then ⌊q⌋ else ⌊q⌋ + 1

/-- Arithmetic range as `numpy.arange(start, stop, step)` for a positive
step: values `start + i * step` strictly below `stop`. -/
def npArange (start stop step : ℚ) : List ℚ :=
  if 0 < step then
    (List.range (⌈(stop - start) / step⌉.toNat)).map fun i : ℕ =>
      start + (i : ℚ) * step
  else []

/-- Half-open interval partition as
`pandas.interval_range(start, stop, periods, closed="left")`:
`periods` equal-width intervals between `start` and `stop`. -/
def pdIntervalRange (start stop : ℚ) (periods : ℕ) : List (ℚ × ℚ) :=
  (List.range periods).map fun i : ℕ =>
    (start + (i : ℚ) * ((stop - start) / periods),
      start + ((i : ℚ) + 1) * ((stop - start) / periods))

/-- Midpoint of an interval, as `pandas.Interval.mid`. -/
def intervalMid (iv : ℚ × ℚ) : ℚ := (iv.1 + iv.2) / 2

/-- Missing-data tolerance constant `na_thres = 0.10` of `_groupby_regrid`. -/
def na_thres : ℚ := 1/10

/-- Minimum number of valid points per group, from `_groupby_regrid`:
`min_points = int(n_points * (1 - na_thres))` where
`n_points = (resolution / data_resolution[0]) * (resolution / data_resolution[1])`. -/
def groupbyMinPoints (rlat rlon resolution : ℚ) : ℤ :=
  pyInt ((resolution / rlat) * (resolution / rlon) * (1 - na_thres))

/-- Latitude bins of `_groupby_regrid`: offset by half a resolution so the
bins are centered, with `round((north - south) / resolution) + 1` periods. -/
def groupbyLatBins (spatial_bounds : SpatialBounds) (resolution : ℚ) : List (ℚ × ℚ) :=
  pdIntervalRange (spatial_bounds.south - 1/2 * resolution)
    (spatial_bounds.north + 1/2 * resolution)
    (npRound ((spatial_bounds.north - spatial_bounds.south) / resolution) + 1).toNat

/-- Longitude bins of `_groupby_regrid`, analogous to `groupbyLatBins`. -/
def groupbyLonBins (spatial_bounds : SpatialBounds) (resolution : ℚ) : List (ℚ × ℚ) :=
  pdIntervalRange (spatial_bounds.west - 1/2 * resolution)
    (spatial_bounds.east + 1/2 * resolution)
    (npRound ((spatial_bounds.east - spatial_bounds.west) / resolution) + 1).toNat

/-- Membership of a coordinate in a left-closed right-open bin. -/
def inBin (iv : ℚ × ℚ) (x : ℚ) : Bool :=
  decide (iv.1 ≤ x) && decide (x < iv.2)

/-- The source-cell values contributing to one target cell: all values whose
latitude falls in `latBin` and whose longitude falls in `lonBin`, as grouped
by `flox.xarray_reduce` with `isbin=True`. -/
def cellValues (data : Dataset) (latBin lonBin : ℚ × ℚ) : List (Option ℚ) :=
  ((data.latitude.zip data.values).filter fun p => inBin latBin p.1).flatMap fun p =>
    ((data.longitude.zip p.2).filter fun q => inBin lonBin q.1).map fun q => q.2

/-- Group reduction with `func="mean"`, `skipna=True` and `min_count`, as in
`flox.xarray_reduce`: NaN (`none`) when the group has no valid value or
fewer valid values than `min_count`, otherwise the mean of the valid
values. -/
def reduceMean (vals : List (Option ℚ)) (minCount : ℤ) : Option ℚ :=
  if (vals.filterMap id).length = 0 ∨ ((vals.filterMap id).length : ℤ) < minCount
  then none
  else some ((vals.filterMap id).sum / ((vals.filterMap id).length : ℚ))

/-- Binned aggregation, from `regrid._groupby_regrid`: build centered bins
from the bounds and resolution, group the source cells into them, reduce by
mean with the minimum-count threshold, and use each bin's midpoint as the
output coordinate. `none` models the Python failure (`int(nan)`) when
resolution inference yields NaN. -/
def groupby_regrid (data : Dataset) (spatial_bounds : SpatialBounds)
    (resolution : ℚ) : Option Dataset :=
  match infer_resolution data with
  | (some rlat, some rlon) =>
    let min_points := groupbyMinPoints rlat rlon resolution
    let lat_bins := groupbyLatBins spatial_bounds resolution
    let lon_bins := groupbyLonBins spatial_bounds resolution
    some
      { latitude := lat_bins.map intervalMid
        longitude := lon_bins.map intervalMid
        values := lat_bins.map fun lb => lon_bins.map fun ob =>
          reduceMean (cellValues data lb ob) min_points }
  | _ => none

/-- Piecewise-linear interpolation of a 1-D profile of `(coordinate, value)`
samples at point `x`; outside the sample range the result is missing (no
extrapolation), and a missing endpoint propagates. -/
def interp1 : List (ℚ × Option ℚ) → ℚ → Option ℚ
  | [], _ => none
  | [(x0, v0)], x => if x = x0 then v0 else none
  | (x0, v0) :: (x1, v1) :: rest, x =>
    if x < x0 then none
    else if x ≤ x1 then
      match v0, v1 with
      | some a, some b =>
        if x1 = x0 then some a
        else some (a + (b - a) * (x - x0) / (x1 - x0))
      | _, _ => none
    else interp1 ((x1, v1) :: rest) x

/-- Bilinear interpolation of the dataset's variable at one target point, as
`xarray.Dataset.interp(..., method="linear")` over the latitude and
longitude axes: interpolate along latitude in every source column, then
along longitude. -/
def interpValue (data : Dataset) (lat lon : ℚ) : Option ℚ :=
  let latProfile : List (Option ℚ) := (List.range data.longitude.length).map fun j =>
    interp1 (data.latitude.zip (data.values.map fun row => (row[j]?).join)) lat
  interp1 (data.longitude.zip latProfile) lon

/-- Linear-interpolation regrid, from `regrid._interp_regrid`: target
coordinates `numpy.arange(south, north + resolution, resolution)` (analogous
for longitude) and linear interpolation of the source at each of them. -/
def interp_regrid (data : Dataset) (spatial_bounds : SpatialBounds)
    (resolution : ℚ) : Dataset :=
  let lat_coords := npArange spatial_bounds.south
    (spatial_bounds.north + resolution) resolution
  let lon_coords := npArange spatial_bounds.west
    (spatial_bounds.east + resolution) resolution
  { latitude := lat_coords
    longitude := lon_coords
    values := lat_coords.map fun la => lon_coords.map fun lo => interpValue data la lo }

/-- Adaptive dispatcher, from `regrid.flox_regrid`: with
`old_resolution = min(infer_resolution(data))`, aggregate when
`resolution >= 4 * old_resolution`, interpolate when
`resolution <= 0.25 * old_resolution`, and otherwise interpolate to
`old_resolution / 4` first and then aggregate to the target. -/
def flox_regrid (data : Dataset) (spatial_bounds : SpatialBounds)
    (resolution : ℚ) : Option Dataset :=
  match infer_resolution data with
  | (some rlat, some rlon) =>
    let old_resolution := min rlat rlon
    if resolution ≥ 4 * old_resolution then
      groupby_regrid data spatial_bounds resolution
    else if resolution ≤ 1/4 * old_resolution then
      some (interp_regrid data spatial_bounds resolution)
    else
      groupby_regrid (interp_regrid data spatial_bounds (old_resolution / 4))
        spatial_bounds resolution
  | _ => none

/-- Outcome of `regrid_data`: the adaptive flox path carries its result; the
esmf path delegates to the external xesmf backend (an optional dependency
outside this core) and is recorded as a marker. -/
inductive RegridOutput where
  | floxResult (result : Option Dataset)
  | esmfDelegated
deriving DecidableEq, Repr

/-- Entry point, from `regrid.regrid_data`: dispatch on the `method` string,
default `"flox"`; `"esmf"` delegates to the external backend; any other
token raises a `ValueError` whose message names the unknown token. -/
def regrid_data (data : Dataset) (spatial_bounds : SpatialBounds)
    (resolution : ℚ) (method : String := "flox") : Except String RegridOutput :=
  if method = "flox" then
    Except.ok (RegridOutput.floxResult (flox_regrid data spatial_bounds resolution))
  else if method = "esmf" then
    Except.ok RegridOutput.esmfDelegated
  else
    Except.error ("Unknown regridding method \x27" ++ method ++ "\x27")

/-- Arithmetic progression `a, a + d, ..., a + (n-1) * d` of length `n`,
used to describe uniformly spaced coordinate axes. -/
def arithSeq (a d : ℚ) : ℕ → List ℚ
  | 0 => []
  | n + 1 => a :: arithSeq (a + d) d n

/-- Concrete two-by-two dataset with unit native resolution, used as a
witness input. -/
def sampleData : Dataset :=
  ⟨[51, 52], [3, 4], [[some 1, some 1], [some 1, some 1]]⟩

/-- Concrete bounds (north 54, east 6, south 51, west 3) from the tests. -/
def sampleBounds : SpatialBounds := ⟨54, 6, 51, 3⟩

/-- C7: constructing `SpatialBounds` fails exactly when `south > north` or
`west > east`; a successful construction stores the four given values
unchanged and they satisfy `south ≤ north` and `west ≤ east`. -/
theorem claim_C7_spatial_bounds_validation (north east south west : ℚ) :
    ((∃ msg, SpatialBounds.make north east south west = Except.error msg) ↔
      (north < south ∨ east < west)) ∧
    (SpatialBounds.make north east south west =
        Except.ok ⟨north, east, south, west⟩ ↔ (south ≤ north ∧ west ≤ east)) ∧
    (∀ b, SpatialBounds.make north east south west = Except.ok b →
      b = ⟨north, east, south, west⟩ ∧ b.south ≤ b.north ∧ b.west ≤ b.east) := by
  unfold SpatialBounds.make
  split_ifs with h1 h2
  · refine ⟨⟨fun _ => Or.inl h1, fun _ => ⟨_, rfl⟩⟩, ⟨(fun h => by cases h), ?_⟩,
      fun b hb => by cases hb⟩
    rintro ⟨hsn, -⟩
    exact absurd h1 (not_lt.mpr hsn)
  · refine ⟨⟨fun _ => Or.inr h2, fun _ => ⟨_, rfl⟩⟩, ⟨(fun h => by cases h), ?_⟩,
      fun b hb => by cases hb⟩
    rintro ⟨-, hwe⟩
    exact absurd h2 (not_lt.mpr hwe)
  · refine ⟨⟨?_, ?_⟩, ⟨fun _ => ⟨not_lt.mp h1, not_lt.mp h2⟩, fun _ => rfl⟩, ?_⟩
    · rintro ⟨msg, hmsg⟩
      cases hmsg
    · rintro (h | h)
      · exact absurd h (not_lt.mpr (not_lt.mp h1))
      · exact absurd h (not_lt.mpr (not_lt.mp h2))
    · rintro b hb
      cases hb
      exact ⟨rfl, not_lt.mp h1, not_lt.mp h2⟩

/-- C7 witness: the bounds (54, 6, 51, 3) are valid and stored unchanged. -/
theorem claim_C7_witness :
    SpatialBounds.make 54 6 51 3 = Except.ok ⟨54, 6, 51, 3⟩ :=
  (claim_C7_spatial_bounds_validation 54 6 51 3).2.1.mpr (by norm_num)

/-- C4: `regrid_data` with a method string outside the recognized set
raises a `ValueError` whose message contains the invalid token, while the
recognized tokens "flox" and "esmf" never reach that branch. -/
theorem claim_C4_unknown_method_error (data : Dataset) (sb : SpatialBounds)
    (res : ℚ) :
    (∀ method : String, method ≠ "flox" → method ≠ "esmf" →
      regrid_data data sb res method =
        Except.error ("Unknown regridding method \x27" ++ method ++ "\x27")) ∧
    regrid_data data sb res "flox" =
      Except.ok (RegridOutput.floxResult (flox_regrid data sb res)) ∧
    regrid_data data sb res "esmf" = Except.ok RegridOutput.esmfDelegated :=
  ⟨fun _ h1 h2 => by simp [regrid_data, h1, h2],
    by simp [regrid_data], by simp [regrid_data]⟩

/-- C4 witness: the unknown token "bogus" at a concrete grid, bounds and
resolution yields the configuration error whose message contains "bogus". -/
theorem claim_C4_witness :
    regrid_data sampleData sampleBounds 1 "bogus" =
      Except.error ("Unknown regridding method \x27" ++ "bogus" ++ "\x27") :=
  (claim_C4_unknown_method_error sampleData sampleBounds 1).1 "bogus"
    (by decide) (by decide)

/-- C9 counterexample: the token "adaptive" is not one of the recognized
method strings; `regrid_data` rejects it with the unknown-method error
instead of invoking the adaptive path. -/
theorem claim_C9_counterexample :
    regrid_data sampleData sampleBounds 1 "adaptive" =
      Except.error ("Unknown regridding method \x27" ++ "adaptive" ++ "\x27") := by
  simp [regrid_data]

/-- C9 (amended): the recognized method tokens are "flox" (the default,
selecting the adaptive engine) and "esmf" (selecting the external
conservative backend); omitting `method` or passing "flox" invokes the
adaptive path, and any other token is rejected with a configuration
error. -/
theorem claim_C9_method_tokens (data : Dataset) (sb : SpatialBounds) (res : ℚ) :
    regrid_data data sb res = regrid_data data sb res "flox" ∧
    regrid_data data sb res "flox" =
      Except.ok (RegridOutput.floxResult (flox_regrid data sb res)) ∧
    regrid_data data sb res "esmf" = Except.ok RegridOutput.esmfDelegated ∧
    (∀ method : String, method ≠ "flox" → method ≠ "esmf" →
      ∃ msg, regrid_data data sb res method = Except.error msg) :=
  ⟨rfl, by simp [regrid_data], by simp [regrid_data],
    fun m h1 h2 => ⟨"Unknown regridding method \x27" ++ m ++ "\x27",
      by simp [regrid_data, h1, h2]⟩⟩

/-- C9 witness: the spec's token "conservative" is likewise rejected at a
concrete input, so the recognized set is exactly the pair of the amended
claim. -/
theorem claim_C9_witness :
    ∃ msg, regrid_data sampleData sampleBounds 1 "conservative" =
      Except.error msg :=
  (claim_C9_method_tokens sampleData sampleBounds 1).2.2.2 "conservative"
    (by decide) (by decide)

/-- C10: a coordinate axis with exactly one element gives an empty
first-difference array whose median is NaN (modelled as `none`), which
`infer_resolution` returns for that axis without raising. -/
theorem claim_C10_singleton_axis_nan (d : Dataset) :
    (d.latitude.length = 1 → (infer_resolution d).fst = none) ∧
    (d.longitude.length = 1 → (infer_resolution d).snd = none) := by
  constructor
  · intro h
    obtain ⟨a, ha⟩ := List.length_eq_one.mp h
    simp [infer_resolution, ha, diff1, npMedian]
  · intro h
    obtain ⟨a, ha⟩ := List.length_eq_one.mp h
    simp [infer_resolution, ha, diff1, npMedian]

/-- C10 witness: a dataset whose two axes both hold a single sample gets
NaN (`none`) for both inferred resolutions. -/
theorem claim_C10_witness :
    (infer_resolution ⟨[0], [0], [[some 1]]⟩).fst = none ∧
    (infer_resolution ⟨[0], [0], [[some 1]]⟩).snd = none :=
  ⟨(claim_C10_singleton_axis_nan ⟨[0], [0], [[some 1]]⟩).1 rfl,
    (claim_C10_singleton_axis_nan ⟨[0], [0], [[some 1]]⟩).2 rfl⟩

/-- C6 counterexample: a latitude axis monotonically sorted in descending
order with two samples yields a negative inferred latitude resolution, so
the inferred pair is not strictly positive for descending axes. -/
theorem claim_C6_counterexample :
    ([2, 1] : List ℚ).Sorted (· ≥ ·) ∧
    (infer_resolution ⟨[2, 1], [0, 1], [[some 1, some 1], [some 1, some 1]]⟩).fst
      = some (-1) ∧ ¬ (0 < (-1 : ℚ)) := by
  refine ⟨by norm_num [List.sorted_cons], ?_, by norm_num⟩
  norm_num [infer_resolution, diff1, npMedian, List.insertionSort,
    List.orderedInsert]

/-- Length of the first-difference list: one less than the input's. -/
lemma diff1_length (xs : List ℚ) : (diff1 xs).length = xs.length - 1 := by
  induction xs with
  | nil => rfl
  | cons a t ih =>
    cases t with
    | nil => rfl
    | cons b r =>
      simp only [diff1, List.length_cons] at ih ⊢
      omega

/-- On a strictly ascending list every first difference is positive. -/
lemma diff1_pos_of_sorted (xs : List ℚ) (h : xs.Sorted (· < ·)) :
    ∀ y ∈ diff1 xs, 0 < y := by
  induction xs with
  | nil => intro y hy; cases hy
  | cons a t ih =>
    cases t with
    | nil => intro y hy; cases hy
    | cons b r =>
      obtain ⟨hab, hrest⟩ := List.sorted_cons.mp h
      intro y hy
      rcases List.mem_cons.mp hy with hy | hy
      · subst hy
        exact sub_pos.mpr (hab b (List.mem_cons_self b r))
      · exact ih hrest y hy

/-- The median of a nonempty list of positive rationals exists and is
positive: it is either a member or the mean of two members. -/
lemma npMedian_pos (xs : List ℚ) (hne : xs ≠ []) (hpos : ∀ y ∈ xs, 0 < y) :
    ∃ m, npMedian xs = some m ∧ 0 < m := by
  unfold npMedian
  have hperm : (List.insertionSort (· ≤ ·) xs).Perm xs :=
    List.perm_insertionSort _ xs
  set s := List.insertionSort (· ≤ ·) xs with hs
  have hspos : ∀ y ∈ s, 0 < y := fun y hy => hpos y (hperm.mem_iff.mp hy)
  have hlen0 : s.length ≠ 0 := by
    rw [hperm.length_eq]
    exact fun h => hne (List.eq_nil_of_length_eq_zero h)
  rw [if_neg hlen0]
  by_cases hodd : s.length % 2 = 1
  · rw [if_pos hodd]
    have hidx : s.length / 2 < s.length :=
      Nat.div_lt_self (Nat.pos_of_ne_zero hlen0) one_lt_two
    rw [List.getElem?_eq_getElem hidx]
    exact ⟨_, rfl, hspos _ (List.getElem_mem hidx)⟩
  · rw [if_neg hodd]
    have hidx2 : s.length / 2 < s.length :=
      Nat.div_lt_self (Nat.pos_of_ne_zero hlen0) one_lt_two
    have hidx1 : s.length / 2 - 1 < s.length := by omega
    rw [List.getElem?_eq_getElem hidx1, List.getElem?_eq_getElem hidx2]
    have p1 := hspos _ (List.getElem_mem hidx1)
    have p2 := hspos _ (List.getElem_mem hidx2)
    exact ⟨_, rfl, by positivity⟩

/-- C6 (amended): for a dataset whose latitude and longitude axes are
strictly ascending with at least two samples each, `infer_resolution`
returns two strictly positive values; for a descending axis the inferred
value is negative instead (see the counterexample). -/
theorem claim_C6_infer_resolution_positive (d : Dataset)
    (hlat : d.latitude.Sorted (· < ·)) (hlat2 : 2 ≤ d.latitude.length)
    (hlon : d.longitude.Sorted (· < ·)) (hlon2 : 2 ≤ d.longitude.length) :
    ∃ rlat rlon, infer_resolution d = (some rlat, some rlon) ∧
      0 < rlat ∧ 0 < rlon := by
  have h1 : diff1 d.latitude ≠ [] := by
    have hl := diff1_length d.latitude
    intro h
    rw [h] at hl
    simp at hl
    omega
  have h2 : diff1 d.longitude ≠ [] := by
    have hl := diff1_length d.longitude
    intro h
    rw [h] at hl
    simp at hl
    omega
  obtain ⟨m1, hm1, hp1⟩ := npMedian_pos _ h1 (diff1_pos_of_sorted _ hlat)
  obtain ⟨m2, hm2, hp2⟩ := npMedian_pos _ h2 (diff1_pos_of_sorted _ hlon)
  exact ⟨m1, m2, by simp [infer_resolution, hm1, hm2], hp1, hp2⟩

/-- C6 witness: the sample dataset's strictly ascending axes give a pair
of positive inferred resolutions. -/
theorem claim_C6_witness :
    ∃ rlat rlon, infer_resolution sampleData = (some rlat, some rlon) ∧
      0 < rlat ∧ 0 < rlon :=
  claim_C6_infer_resolution_positive sampleData
    (by norm_num [sampleData, List.sorted_cons]) (by norm_num [sampleData])
    (by norm_num [sampleData, List.sorted_cons]) (by norm_num [sampleData])

/-- C1: with source scale `s = min (infer_resolution data)`, `flox_regrid`
returns the binned aggregation when `resolution ≥ 4 * s`, the linear
interpolation when `resolution ≤ 0.25 * s`, and otherwise the two-stage
result of interpolating to `s / 4` and then aggregating to the target. -/
theorem claim_C1_adaptive_dispatch (d : Dataset) (sb : SpatialBounds)
    (res rlat rlon : ℚ)
    (hinf : infer_resolution d = (some rlat, some rlon)) (hres : 0 < res) :
    (4 * min rlat rlon ≤ res →
      flox_regrid d sb res = groupby_regrid d sb res) ∧
    (res ≤ 1/4 * min rlat rlon →
      flox_regrid d sb res = some (interp_regrid d sb res)) ∧
    (1/4 * min rlat rlon < res → res < 4 * min rlat rlon →
      flox_regrid d sb res =
        groupby_regrid (interp_regrid d sb (min rlat rlon / 4)) sb res) := by
  have hflox : flox_regrid d sb res =
      (if res ≥ 4 * min rlat rlon then groupby_regrid d sb res
       else if res ≤ 1/4 * min rlat rlon then some (interp_regrid d sb res)
       else groupby_regrid (interp_regrid d sb (min rlat rlon / 4)) sb res) := by
    simp only [flox_regrid, hinf]
  refine ⟨fun h => ?_, fun h => ?_, fun hl hu => ?_⟩
  · rw [hflox, if_pos h]
  · have hno : ¬ (res ≥ 4 * min rlat rlon) := by
      intro hge
      have hmin : min rlat rlon ≤ 0 := by linarith
      linarith
    rw [hflox, if_neg hno, if_pos h]
  · rw [hflox, if_neg (fun hge => absurd hu (not_lt.mpr hge)),
      if_neg (not_le.mpr hl)]

/-- C1 witness: the sample grid has source scale 1, so the target
resolution 8 (a ratio of 8 ≥ 4) routes to the binned aggregator. -/
theorem claim_C1_witness :
    flox_regrid sampleData sampleBounds 8 =
      groupby_regrid sampleData sampleBounds 8 :=
  (claim_C1_adaptive_dispatch sampleData sampleBounds 8 1 1
    (by norm_num [infer_resolution, sampleData, diff1, npMedian,
      List.insertionSort, List.orderedInsert])
    (by norm_num)).1 (by norm_num)

/-- Every element of `numpy.arange(start, stop, step)` with positive step
is `start + i * step` for some natural `i`, and lies strictly below
`stop`. -/
lemma npArange_mem_bound (start stop step : ℚ) (hstep : 0 < step) :
    ∀ x ∈ npArange start stop step,
      (∃ i : ℕ, x = start + (i : ℚ) * step) ∧ x < stop := by
  intro x hx
  unfold npArange at hx
  rw [if_pos hstep] at hx
  rw [List.mem_map] at hx
  obtain ⟨i, hi, rfl⟩ := hx
  rw [List.mem_range] at hi
  have hi' : i < (⌈(stop - start) / step⌉).toNat := hi
  refine ⟨⟨i, rfl⟩, ?_⟩
  have h1 : (i : ℤ) < ⌈(stop - start) / step⌉ := Int.lt_toNat.mp hi'
  have h2 : ((i : ℚ)) < (stop - start) / step := by
    have h := Int.lt_ceil.mp h1
    exact_mod_cast h
  have h3 : (i : ℚ) * step < stop - start := (lt_div_iff₀ hstep).mp h2
  linarith

/-- C8: the interpolator's output coordinates are the arithmetic sequence
starting at `south` (resp. `west`) with the target resolution as step,
stopping before `north + resolution` (resp. `east + resolution`); in
particular the first five latitude values for `south = 51` and resolution
`0.002` are `51.0, 51.002, 51.004, 51.006, 51.008`. -/
theorem claim_C8_interp_coords (d : Dataset) (sb : SpatialBounds) (res : ℚ)
    (hres : 0 < res) :
    (∀ x ∈ (interp_regrid d sb res).latitude,
      (∃ i : ℕ, x = sb.south + (i : ℚ) * res) ∧ x < sb.north + res) ∧
    (∀ x ∈ (interp_regrid d sb res).longitude,
      (∃ i : ℕ, x = sb.west + (i : ℚ) * res) ∧ x < sb.east + res) ∧
    (interp_regrid sampleData ⟨2551/50, 151/50, 51, 3⟩ (1/500)).latitude.take 5
      = [51, 25501/500, 12751/250, 25503/500, 6376/125] := by
  refine ⟨fun x hx => npArange_mem_bound _ _ _ hres x hx,
    fun x hx => npArange_mem_bound _ _ _ hres x hx, ?_⟩
  show (npArange 51 (2551/50 + 1/500) (1/500)).take 5 = _
  unfold npArange
  rw [if_pos (by norm_num : (0:ℚ) < 1/500),
    show ⌈((2551/50 + 1/500 : ℚ) - 51) / (1/500)⌉ = 11 by norm_num,
    show ((11 : ℤ)).toNat = 11 from rfl,
    show List.range 11 = [0, 1, 2, 3, 4, 5, 6, 7, 8, 9, 10] from rfl]
  norm_num

/-- C8 witness: the concrete first-five-coordinates instance, obtained from
the theorem at the sample input. -/
theorem claim_C8_witness :
    (interp_regrid sampleData ⟨2551/50, 151/50, 51, 3⟩ (1/500)).latitude.take 5
      = [51, 25501/500, 12751/250, 25503/500, 6376/125] :=
  (claim_C8_interp_coords sampleData sampleBounds 1 (by norm_num)).2.2

/-- First differences of an arithmetic progression with one extra final
sample: the uniform spacing repeated, then the irregular final spacing. -/
lemma diff1_arithSeq_append (a d e : ℚ) (n : ℕ) :
    diff1 (arithSeq a d (n + 1) ++ [e]) =
      List.replicate n d ++ [e - (a + (n : ℚ) * d)] := by
  induction n generalizing a with
  | zero => simp [arithSeq, diff1]
  | succ m ih =>
    have h1 : arithSeq a d (m + 2) ++ [e]
        = a :: (arithSeq (a + d) d (m + 1) ++ [e]) := rfl
    have h2 : arithSeq (a + d) d (m + 1) ++ [e]
        = (a + d) :: (arithSeq (a + d + d) d m ++ [e]) := rfl
    rw [h1, h2]
    simp only [diff1]
    rw [← h2, ih (a + d), show a + d - a = d from by ring,
      show e - (a + d + (m : ℚ) * d) = e - (a + ((m + 1 : ℕ) : ℚ) * d) from by
        push_cast; ring,
      List.replicate_succ, List.cons_append]

/-- The numpy median of `m ≥ 2` copies of `d` with one extra value appended
is `d`: the outlier sorts to one end and the middle element (or the mean of
the two middle elements) is `d`. -/
lemma npMedian_replicate_append (d c : ℚ) (m : ℕ) (hm : 2 ≤ m) :
    npMedian (List.replicate m d ++ [c]) = some d := by
  have hsorted_rep : List.Sorted (· ≤ ·) (List.replicate m d) :=
    (List.pairwise_replicate).mpr (Or.inr le_rfl)
  by_cases hcd : c ≤ d
  · have hsort : List.insertionSort (· ≤ ·) (List.replicate m d ++ [c])
        = [c] ++ List.replicate m d := by
      refine List.eq_of_perm_of_sorted
        ((List.perm_insertionSort _ _).trans (List.perm_append_singleton c _))
        (List.sorted_insertionSort _ _) ?_
      refine List.sorted_cons.mpr ⟨fun b hb => ?_, hsorted_rep⟩
      rw [List.eq_of_mem_replicate hb]
      exact hcd
    have hlen : ([c] ++ List.replicate m d).length = m + 1 := by simp
    unfold npMedian
    rw [hsort]
    simp only [hlen, List.getElem?_append, List.getElem?_replicate,
      List.length_singleton]
    rw [if_neg (by omega)]
    by_cases hpar : (m + 1) % 2 = 1
    · rw [if_pos hpar, if_neg (by omega), if_pos (by omega)]
    · rw [if_neg hpar, if_neg (by omega), if_pos (by omega),
        if_neg (by omega), if_pos (by omega)]
      show some ((d + d) / 2) = some d
      norm_num
  · have hdc : d ≤ c := le_of_lt (not_le.mp hcd)
    have hsort : List.insertionSort (· ≤ ·) (List.replicate m d ++ [c])
        = List.replicate m d ++ [c] := by
      refine List.eq_of_perm_of_sorted (List.perm_insertionSort _ _)
        (List.sorted_insertionSort _ _) ?_
      refine List.pairwise_append.mpr ⟨hsorted_rep, List.sorted_singleton c,
        fun x hx y hy => ?_⟩
      rw [List.eq_of_mem_replicate hx, List.mem_singleton.mp hy]
      exact hdc
    have hlen : (List.replicate m d ++ [c]).length = m + 1 := by simp
    unfold npMedian
    rw [hsort]
    simp only [hlen, List.getElem?_append, List.getElem?_replicate,
      List.length_replicate]
    rw [if_neg (by omega)]
    by_cases hpar : (m + 1) % 2 = 1
    · rw [if_pos hpar, if_pos (by omega), if_pos (by omega)]
    · rw [if_neg hpar, if_pos (by omega), if_pos (by omega),
        if_pos (by omega), if_pos (by omega)]
      show some ((d + d) / 2) = some d
      norm_num

/-- C5: `infer_resolution` uses the median of the first differences, so an
axis with uniform spacing `d` and a single irregular edge cell (with at
least three regular spacings, so the outlier is not the median) infers
exactly `d`. -/
theorem claim_C5_median_robustness (a d e : ℚ) (n : ℕ) (hn : 3 ≤ n)
    (lon : List ℚ) (vals : List (List (Option ℚ))) :
    (infer_resolution ⟨arithSeq a d n ++ [e], lon, vals⟩).fst = some d := by
  obtain ⟨m, rfl⟩ : ∃ m, n = m + 1 := ⟨n - 1, by omega⟩
  show npMedian (diff1 (arithSeq a d (m + 1) ++ [e])) = some d
  rw [diff1_arithSeq_append]
  exact npMedian_replicate_append d _ m (by omega)

/-- C5 witness: the axis `[51, 52, 53, 100]` (uniform spacing 1 with an
irregular final cell) infers resolution exactly 1. -/
theorem claim_C5_witness :
    (infer_resolution ⟨arithSeq 51 1 3 ++ [100], [0, 1], []⟩).fst = some 1 :=
  claim_C5_median_robustness 51 1 100 3 (by norm_num) [0, 1] []

/-- Rounding a natural number is the identity. -/
lemma npRound_natCast (k : ℕ) : npRound (k : ℚ) = k := by
  unfold npRound
  rw [Int.floor_natCast]
  norm_num

/-- Midpoints of the centered partition: with `k + 1` equal bins between
`s - res/2` and `s + k*res + res/2` each bin has width exactly `res`, and
the midpoints are `s, s + res, ..., s + k*res`. -/
lemma intervalRange_mids (s res : ℚ) (k : ℕ) :
    (pdIntervalRange (s - 1/2 * res) (s + (k : ℚ) * res + 1/2 * res)
      (k + 1)).map intervalMid
      = (List.range (k + 1)).map fun i : ℕ => s + (i : ℚ) * res := by
  unfold pdIntervalRange intervalMid
  rw [List.map_map]
  refine List.map_congr_left fun i hi => ?_
  have hk : ((k : ℚ) + 1) ≠ 0 := by positivity
  have hw : (s + (k : ℚ) * res + 1/2 * res - (s - 1/2 * res)) / ((k + 1 : ℕ) : ℚ)
      = res := by
    push_cast
    field_simp
    ring
  simp only [Function.comp_apply, hw]
  ring

/-- Unfolding of `groupby_regrid` when resolution inference succeeds: the
output coordinates are the bin midpoints, and every cell value is the
min-count mean reduction of the source values grouped into its bin pair. -/
lemma groupby_regrid_eq (d : Dataset) (sb : SpatialBounds) (res rlat rlon : ℚ)
    (hinf : infer_resolution d = (some rlat, some rlon)) :
    groupby_regrid d sb res = some
      { latitude := (groupbyLatBins sb res).map intervalMid
        longitude := (groupbyLonBins sb res).map intervalMid
        values := (groupbyLatBins sb res).map fun lb =>
          (groupbyLonBins sb res).map fun ob =>
            reduceMean (cellValues d lb ob) (groupbyMinPoints rlat rlon res) } := by
  simp only [groupby_regrid, hinf]

/-- C2: when `(north - south) / res` and `(east - west) / res` are natural
numbers, the aggregator's output coordinates are exactly the arithmetic
sequences `south, south + res, ..., north` and `west, west + res, ...,
east`. -/
theorem claim_C2_groupby_coordinates (d : Dataset) (sb : SpatialBounds)
    (res rlat rlon : ℚ) (kla klo : ℕ)
    (hres : 0 < res)
    (hlat : sb.north - sb.south = (kla : ℚ) * res)
    (hlon : sb.east - sb.west = (klo : ℚ) * res)
    (hinf : infer_resolution d = (some rlat, some rlon)) :
    ∃ out, groupby_regrid d sb res = some out ∧
      out.latitude
        = (List.range (kla + 1)).map (fun i : ℕ => sb.south + (i : ℚ) * res) ∧
      out.longitude
        = (List.range (klo + 1)).map (fun i : ℕ => sb.west + (i : ℚ) * res) := by
  have hlatbins : groupbyLatBins sb res
      = pdIntervalRange (sb.south - 1/2 * res)
          (sb.south + (kla : ℚ) * res + 1/2 * res) (kla + 1) := by
    unfold groupbyLatBins
    have h1 : (sb.north - sb.south) / res = ((kla : ℕ) : ℚ) := by
      rw [hlat]
      field_simp
    rw [h1, npRound_natCast, show ((kla : ℤ) + 1).toNat = kla + 1 by omega,
      show sb.north + 1/2 * res = sb.south + (kla : ℚ) * res + 1/2 * res by
        linarith]
  have hlonbins : groupbyLonBins sb res
      = pdIntervalRange (sb.west - 1/2 * res)
          (sb.west + (klo : ℚ) * res + 1/2 * res) (klo + 1) := by
    unfold groupbyLonBins
    have h1 : (sb.east - sb.west) / res = ((klo : ℕ) : ℚ) := by
      rw [hlon]
      field_simp
    rw [h1, npRound_natCast, show ((klo : ℤ) + 1).toNat = klo + 1 by omega,
      show sb.east + 1/2 * res = sb.west + (klo : ℚ) * res + 1/2 * res by
        linarith]
  refine ⟨_, groupby_regrid_eq d sb res rlat rlon hinf, ?_, ?_⟩
  · show (groupbyLatBins sb res).map intervalMid = _
    rw [hlatbins, intervalRange_mids]
  · show (groupbyLonBins sb res).map intervalMid = _
    rw [hlonbins, intervalRange_mids]

/-- C2 witness: regridding the sample grid to bounds (54, 6, 51, 3) at
resolution 1 yields latitude coordinates 51, 52, 53, 54 and longitude
coordinates 3, 4, 5, 6. -/
theorem claim_C2_witness :
    ∃ out, groupby_regrid sampleData sampleBounds 1 = some out ∧
      out.latitude
        = (List.range (3 + 1)).map
            (fun i : ℕ => sampleBounds.south + (i : ℚ) * 1) ∧
      out.longitude
        = (List.range (3 + 1)).map
            (fun i : ℕ => sampleBounds.west + (i : ℚ) * 1) :=
  claim_C2_groupby_coordinates sampleData sampleBounds 1 1 1 3 3
    (by norm_num) (by norm_num [sampleBounds]) (by norm_num [sampleBounds])
    (by norm_num [infer_resolution, sampleData, diff1, npMedian,
      List.insertionSort, List.orderedInsert])

/-- C3: the minimum-valid-count threshold is the floor of 0.90 times the
number of source cells per target cell, and any target cell whose count of
valid contributing source values is below it is a missing value in the
output; the aggregation itself always returns a grid, never an error. -/
theorem claim_C3_min_count_threshold (d : Dataset) (sb : SpatialBounds)
    (res rlat rlon : ℚ)
    (hinf : infer_resolution d = (some rlat, some rlon))
    (hn : 0 ≤ (res / rlat) * (res / rlon)) :
    groupbyMinPoints rlat rlon res
      = ⌊(9/10 : ℚ) * ((res / rlat) * (res / rlon))⌋ ∧
    ∃ out, groupby_regrid d sb res = some out ∧
      ∀ (i j : ℕ) (lb ob : ℚ × ℚ), (groupbyLatBins sb res)[i]? = some lb →
        (groupbyLonBins sb res)[j]? = some ob →
        (((cellValues d lb ob).filterMap id).length : ℤ) <
          groupbyMinPoints rlat rlon res →
        out.values[i]?.bind (fun row : List (Option ℚ) => row[j]?) = some none := by
  constructor
  · unfold groupbyMinPoints pyInt na_thres
    rw [if_pos (mul_nonneg hn (by norm_num))]
    congr 1
    ring
  · refine ⟨_, groupby_regrid_eq d sb res rlat rlon hinf, ?_⟩
    intro i j lb ob hlb hob hcount
    show (((groupbyLatBins sb res).map fun lb =>
        (groupbyLonBins sb res).map fun ob =>
          reduceMean (cellValues d lb ob)
            (groupbyMinPoints rlat rlon res))[i]?).bind
      (fun row : List (Option ℚ) => row[j]?) = some none
    rw [List.getElem?_map, hlb, Option.map_some', Option.some_bind,
      List.getElem?_map, hob, Option.map_some']
    congr 1
    unfold reduceMean
    rw [if_pos (Or.inr hcount)]

/-- C3 witness: at the sample input the threshold is `⌊0.9⌋ = 0` and the
below-threshold cells of the output are missing values. -/
theorem claim_C3_witness :
    groupbyMinPoints 1 1 1 = ⌊(9/10 : ℚ) * ((1 / 1) * (1 / 1))⌋ ∧
    ∃ out, groupby_regrid sampleData sampleBounds 1 = some out ∧
      ∀ (i j : ℕ) (lb ob : ℚ × ℚ),
        (groupbyLatBins sampleBounds 1)[i]? = some lb →
        (groupbyLonBins sampleBounds 1)[j]? = some ob →
        (((cellValues sampleData lb ob).filterMap id).length : ℤ) <
          groupbyMinPoints 1 1 1 →
        out.values[i]?.bind (fun row : List (Option ℚ) => row[j]?) = some none :=
  claim_C3_min_count_threshold sampleData sampleBounds 1 1 1
    (by norm_num [infer_resolution, sampleData, diff1, npMedian,
      List.insertionSort, List.orderedInsert])
    (by norm_num)

end Zampy
